import Mathlib

/-!
Verification development for the Voice_Cloning_Text-to-Speech repository.

The repository has two Python source files, `app.py` (a Streamlit UI around
a pretrained TTS model) and `download_model.py` (a downloader script).
We give a shallow embedding of the functions of both files.  Effects of
the Python code (library calls, displayed messages, file-system changes)
are made explicit: each embedded function returns, besides its value, a
trace of the observable events it performs.  External libraries
(`librosa`, `soundfile`, the TTS model, `psutil`, the `ModelManager`)
are parameters of the embedding: an environment record supplies their
behaviour, and fallible library calls return `Except`.

Machine floats of the Python code are modelled by exact rationals.  The
two float divisions in the code (`rss / 1024**2` and `len / (1024*1024)`)
are divisions of an integer by a power of two, hence exact in binary
floating point, and the dyadic grid of the results is far coarser than
the rounding error of the thresholds `8192 * 0.90` and `8192 * 0.75`,
so the rational comparison agrees with the float comparison everywhere.
-/

namespace App

/-! ### Configuration constants (app.py lines 14-20) -/

def MODEL_NAME : String := "tts_models/multilingual/multi-dataset/your_tts"

def TARGET_SAMPLE_RATE : ℕ := 22050

def MAX_FILE_SIZE_MB : ℕ := 50

def MAX_TEXT_LENGTH : ℕ := 3000

def MEMORY_LIMIT_MB : ℕ := 8192

def MAX_AUDIO_DURATION : ℕ := 60

def MODEL_TTL : ℕ := 1800

/-! ### memory_guard (app.py lines 28-40)

`memory_guard` reads the process RSS once via
`psutil.Process().memory_info().rss`, converts it to megabytes, and
compares against two thresholds.  We embed it as a function of the single
RSS reading (in bytes) returning the list of events it performs; the
event `readRSS` marks the one call that samples the process memory. -/

/-- Events performed by `memory_guard`. -/
inductive GEv where
  | readRSS
  | criticalError
  | warning
  | stop
  deriving DecidableEq, Repr

/-- `rss / (1024 ** 2)`: the RSS reading converted to MB (app.py line 31). -/
def guard_mem (rssBytes : ℕ) : ℚ := (rssBytes : ℚ) / (1024 ^ 2)

/-- Embedding of `memory_guard` (app.py lines 28-40): one RSS read, then
the threshold comparisons `mem_usage > MEMORY_LIMIT_MB * 0.90`
(critical error and `st.stop()`) and `mem_usage > MEMORY_LIMIT_MB * 0.75`
(warning). -/
def memory_guard (rssBytes : ℕ) : List GEv :=
  let mem_usage := guard_mem rssBytes
  GEv.readRSS ::
    (if mem_usage > (MEMORY_LIMIT_MB : ℚ) * (9 / 10) then
      [GEv.criticalError, GEv.stop]
    else if mem_usage > (MEMORY_LIMIT_MB : ℚ) * (3 / 4) then
      [GEv.warning]
    else
      [])

/-- `memory_guard` halts the script (via `st.stop()`). -/
def guard_stops (rssBytes : ℕ) : Bool := GEv.stop ∈ memory_guard rssBytes

/-! ### process_audio (app.py lines 42-71)

The audio libraries are parameters: `librosa.load` (decode the file bytes
with the given target sample rate, mono flag and duration cap),
`librosa.effects.trim` (with its `top_db` argument) and `sf.write` (with
its sample rate, format and subtype arguments).  Each may raise, modelled
by `Except`.  `process_audio` records the library calls it makes, the
error it displays via `st.error` (if any), and its return value:
`some bytes` on success, `none` when an exception was caught. -/

/-- One library call made by `process_audio`, with the arguments the code
passes.  `quantize` stands for `(y * 32767).astype(np.int16)`. -/
inductive LibCall where
  | librosaLoad (sr : ℕ) (mono : Bool) (duration : ℕ)
  | librosaTrim (topDb : ℕ)
  | quantize (factor : ℤ)
  | sfWrite (sr : ℕ) (format : String) (subtype : String)
  deriving DecidableEq, Repr

/-- Behaviour of the external audio libraries.  File bytes are `List ℕ`,
float samples are exact rationals, int16 samples are `ℤ`. -/
structure AudioLibs where
  librosa_load : List ℕ → ℕ → Bool → ℕ → Except String (List ℚ)
  librosa_trim : List ℚ → ℕ → Except String (List ℚ)
  sf_write : List ℤ → ℕ → String → String → Except String (List ℕ)

/-- Truncation toward zero, the C-cast rounding `astype` uses. -/
def truncToward0 (q : ℚ) : ℤ := if 0 ≤ q then ⌊q⌋ else ⌈q⌉

/-- Wrap an integer into the int16 range, as `astype(np.int16)` does. -/
def toInt16 (z : ℤ) : ℤ := (z + 2 ^ 15) % 2 ^ 16 - 2 ^ 15

/-- One sample of `(y * 32767).astype(np.int16)` (app.py line 61). -/
def quantizeSample (q : ℚ) : ℤ := toInt16 (truncToward0 (q * 32767))

/-- Error displayed by `process_audio` via `st.error`: either the
oversize-file `ValueError` it raised itself (app.py lines 47-48) or an
exception message from a library call. -/
inductive ProcError where
  | oversize (sizeMB : ℚ)
  | libError (msg : String)
  deriving DecidableEq, Repr

/-- Outcome of `process_audio`: library-call trace, displayed error,
returned value. -/
structure ProcResult where
  calls : List LibCall
  errorShown : Option ProcError
  result : Option (List ℕ)
  deriving Repr

/-- `len(uploaded_file.getvalue()) / (1024 * 1024)` (app.py line 46). -/
def file_size_mb (file : List ℕ) : ℚ := (file.length : ℚ) / (1024 * 1024)

/-- Embedding of `process_audio` (app.py lines 42-71): size check, then
`librosa.load(..., sr=TARGET_SAMPLE_RATE, mono=True,
duration=MAX_AUDIO_DURATION)`, `librosa.effects.trim(y, top_db=20)[0]`,
`(y * 32767).astype(np.int16)`, and
`sf.write(..., TARGET_SAMPLE_RATE, format='WAV', subtype='PCM_16')`;
any exception is caught, displayed, and `None` is returned. -/
def process_audio (L : AudioLibs) (file : List ℕ) : ProcResult :=
  if file_size_mb file > (MAX_FILE_SIZE_MB : ℚ) then
    ⟨[], some (.oversize (file_size_mb file)), none⟩
  else
    match L.librosa_load file TARGET_SAMPLE_RATE true MAX_AUDIO_DURATION with
    | .error e =>
        ⟨[.librosaLoad TARGET_SAMPLE_RATE true MAX_AUDIO_DURATION],
          some (.libError e), none⟩
    | .ok y =>
      match L.librosa_trim y 20 with
      | .error e =>
          ⟨[.librosaLoad TARGET_SAMPLE_RATE true MAX_AUDIO_DURATION,
            .librosaTrim 20], some (.libError e), none⟩
      | .ok yt =>
        match L.sf_write (yt.map quantizeSample) TARGET_SAMPLE_RATE "WAV" "PCM_16" with
        | .error e =>
            ⟨[.librosaLoad TARGET_SAMPLE_RATE true MAX_AUDIO_DURATION,
              .librosaTrim 20, .quantize 32767], some (.libError e), none⟩
        | .ok bytes =>
            ⟨[.librosaLoad TARGET_SAMPLE_RATE true MAX_AUDIO_DURATION,
              .librosaTrim 20, .quantize 32767,
              .sfWrite TARGET_SAMPLE_RATE "WAV" "PCM_16"],
              none, some bytes⟩

/-! ### optimized_generation (app.py lines 73-82)

The TTS model held in `st.session_state.tts` is a parameter: a function
from the (truncated) text and the speaker wav bytes to the synthesized
bytes, possibly raising.  `optimized_generation` passes
`text[:MAX_TEXT_LENGTH]`, the audio bytes and `language="en"`. -/

/-- Behaviour of the loaded TTS model. -/
structure TTSModel where
  synth : List Char → List ℕ → Except String (List ℕ)

/-- The arguments `optimized_generation` passes to `tts_to_file`. -/
structure GenCall where
  textArg : List Char
  speakerWav : List ℕ
  languageArg : String
  deriving DecidableEq

/-- Embedding of `optimized_generation` (app.py lines 73-82): records the
`tts_to_file` call and its outcome (the bytes written to the output
buffer, or the exception). -/
def optimized_generation (tts : TTSModel) (text : List Char) (audio_data : List ℕ) :
    GenCall × Except String (List ℕ) :=
  (⟨text.take MAX_TEXT_LENGTH, audio_data, "en"⟩,
    tts.synth (text.take MAX_TEXT_LENGTH) audio_data)

/-! ### load_model and its caching annotation (app.py lines 22-26)

`load_model` is wrapped in
`@st.cache_resource(max_entries=1, ttl=MODEL_TTL, show_spinner=False)`.
We embed the documented semantics of that annotation with `max_entries=1`:
the cache holds at most one entry (the model instance and the time it was
stored); a call within `ttl` seconds of the stored entry returns it
without running the body; otherwise the body runs (constructing a new
model, the `fresh` argument) and the entry is replaced.  The returned
`Bool` records whether the body ran (a new model was constructed). -/

/-- The (at most one entry, by `max_entries=1`) cache of `st.cache_resource`. -/
structure CacheState where
  entry : Option (ℕ × TTSModel)

/-- One call of the cached `load_model`: `now` is the call time, `fresh`
the model the body `TTS(...).to('cpu')` would construct. -/
def cache_resource_call (cs : CacheState) (now : ℕ) (fresh : TTSModel) :
    TTSModel × CacheState × Bool :=
  match cs.entry with
  | some (t0, m) =>
      if now < t0 + MODEL_TTL then (m, cs, false)
      else (fresh, ⟨some (now, fresh)⟩, true)
  | none => (fresh, ⟨some (now, fresh)⟩, true)

/-! ### memory_cleanup (app.py lines 84-104)

Only the file-system effect is observable: the loop over `["output.wav"]`
removes that file when it exists, with `os.remove` failures swallowed by
`try ... except: pass`.  The file system is the list of existing file
names (names are unique); `removeFails` says whether `os.remove` raises. -/

/-- File-system effect of `memory_cleanup` (app.py lines 98-104). -/
def memory_cleanup_fs (fs : List String) (removeFails : Bool) : List String :=
  if "output.wav" ∈ fs then
    (if removeFails then fs else fs.filter (fun g => g != "output.wav"))
  else fs

/-! ### The generation branch of main (app.py lines 138-175)

The body of `if st.button("Generate Speech") and voice_file and
text_input:` is embedded as a function of an environment (the RSS reading
of the `memory_guard()` call, the audio libraries, the behaviour of
`load_model()` if invoked, the formatted timestamp), the UI inputs, and
the session state (`st.session_state`, which holds `tts` once loaded).
It returns the trace of its observable events, the new session state, the
bytes handed to `st.audio`, the download file name, and whether
`st.stop()` was reached. -/

/-- Observable events of the generation branch. -/
inductive Ev where
  | memGuard
  | loadModel
  | processAudio
  | synthesize
  | displayAudio
  | showError
  | cleanup
  deriving DecidableEq, Repr

/-- `st.session_state`: the `tts` key, if set. -/
structure Session where
  tts : Option TTSModel

/-- Environment of one run of the generation branch. -/
structure GenEnv where
  rssBytes : ℕ
  libs : AudioLibs
  loadResult : Except String TTSModel
  timestamp : String

/-- The UI inputs read by `main`: the button, the uploaded file, the text
area, the language selectbox and the two sliders of the Advanced Settings
expander (app.py lines 114-136). -/
structure GenInput where
  buttonPressed : Bool
  voiceFile : Option (List ℕ)
  textInput : List Char
  selectedLang : String
  speed : ℚ
  emphasis : ℕ

/-- Outcome of one run of the generation branch. -/
structure GenOutcome where
  trace : List Ev
  session : Session
  output : Option (List ℕ)
  fileName : Option String
  stopped : Bool

/-- `f"premium_clone_{selected_lang}_{timestamp}.wav"` (app.py line 166). -/
def download_name (lang ts : String) : String :=
  "premium_clone_" ++ lang ++ "_" ++ ts ++ ".wav"

/-- The Python truthiness of
`st.button("Generate Speech") and voice_file and text_input`
(app.py line 138): an uploaded file object is truthy iff present, a
string is truthy iff non-empty. -/
def isRequest (inp : GenInput) : Bool :=
  inp.buttonPressed && inp.voiceFile.isSome && !inp.textInput.isEmpty

/-- The part of the generation branch from `process_audio` on (app.py
lines 149-175), given the model `m` in `st.session_state.tts` and the
trace `tr` accumulated so far.  `if not audio_data: return` (lines
151-152) returns early — with no cleanup — both when `process_audio`
returned `None` and when it returned empty (falsy) bytes. -/
def main_after_load (env : GenEnv) (inp : GenInput) (sess : Session)
    (m : TTSModel) (tr : List Ev) : GenOutcome :=
  match (process_audio env.libs (inp.voiceFile.getD [])).result with
  | none => ⟨tr ++ [.processAudio], sess, none, none, false⟩
  | some b =>
    if b = [] then ⟨tr ++ [.processAudio], sess, none, none, false⟩
    else
      match (optimized_generation m inp.textInput b).2 with
      | .error _ =>
          ⟨tr ++ [.processAudio, .synthesize, .showError, .cleanup],
            sess, none, none, false⟩
      | .ok out =>
          ⟨tr ++ [.processAudio, .synthesize, .displayAudio, .cleanup],
            sess, some out, some (download_name inp.selectedLang env.timestamp), false⟩

/-- Embedding of the generation branch of `main` (app.py lines 138-175):
guard the memory (the guard may stop the script), lazily load the model
into the session (a `load_model` exception falls to the `except` handler,
which shows the error and runs `memory_cleanup`), process the audio,
synthesize, display, offer the download, clean up. -/
def main_generate (env : GenEnv) (inp : GenInput) (sess : Session) : GenOutcome :=
  if isRequest inp then
    if guard_stops env.rssBytes then ⟨[.memGuard], sess, none, none, true⟩
    else
      match sess.tts, env.loadResult with
      | none, .error _ =>
          ⟨[.memGuard, .loadModel, .showError, .cleanup], sess, none, none, false⟩
      | none, .ok m => main_after_load env inp ⟨some m⟩ m [.memGuard, .loadModel]
      | some m, _ => main_after_load env inp sess m [.memGuard]
  else ⟨[], sess, none, none, false⟩

end App

/-! ### download_model.py -/

namespace Dl

/-- Observable steps of `download_model` (download_model.py lines 14-55):
the `manager.model_exists` check, the `manager.download_model` call, the
`os.path.exists` verification. -/
inductive DlEv where
  | checkExists
  | doDownload
  | verify
  deriving DecidableEq, Repr

/-- Behaviour of the `ModelManager` and the file system: the existence
check and the download (returning the model path) may raise. -/
structure DlEnv where
  model_exists : Except String Bool
  manager_download : Except String String
  path_exists : String → Bool

/-- Outcome of `download_model`: its step trace and returned boolean. -/
structure DlResult where
  trace : List DlEv
  ok : Bool
  deriving Repr

/-- Embedding of `download_model` (download_model.py lines 14-55): return
`True` when the model already exists; otherwise download, then raise
`FileNotFoundError` if the model path does not exist; every exception is
caught by the `except` clause, which logs and returns `False`. -/
def download_model (env : DlEnv) : DlResult :=
  match env.model_exists with
  | .error _ => ⟨[.checkExists], false⟩
  | .ok true => ⟨[.checkExists], true⟩
  | .ok false =>
    match env.manager_download with
    | .error _ => ⟨[.checkExists, .doDownload], false⟩
    | .ok path =>
      if env.path_exists path then ⟨[.checkExists, .doDownload, .verify], true⟩
      else ⟨[.checkExists, .doDownload, .verify], false⟩

/-- Exit status of the `__main__` block (download_model.py lines 57-67):
`sys.exit(1)` when `download_model` returned `False`, normal exit (0)
otherwise. -/
def script_exit (env : DlEnv) : ℕ :=
  if (download_model env).ok then 0 else 1

end Dl

namespace Wit

open App

/-- A concrete library behaviour for witnesses: decoding always yields the
single sample 1/2, trimming is the identity, writing returns the sample
count as one byte. -/
def Lw : AudioLibs :=
  ⟨fun _ _ _ _ => .ok [1 / 2], fun y _ => .ok y, fun z _ _ _ => .ok [z.length]⟩

/-- A file one byte over the 50 MB limit. -/
def bigFile : List ℕ := List.replicate (50 * 1024 * 1024 + 1) 0

/-- A concrete TTS model for witnesses: echoes the speaker wav. -/
def ttsW : TTSModel := ⟨fun _ a => .ok a⟩

/-- Libraries whose decode step raises. -/
def LbadLoad : AudioLibs :=
  ⟨fun _ _ _ _ => .error "decode failure", fun y _ => .ok y,
    fun z _ _ _ => .ok [z.length]⟩

/-- A benign environment: 1000 MB RSS, well-behaved libraries, a model
that loads. -/
def envW : GenEnv := ⟨1000 * 1024 ^ 2, Lw, .ok ttsW, "20250101_000000"⟩

/-- The same environment but with the failing decoder. -/
def envBad : GenEnv := ⟨1000 * 1024 ^ 2, LbadLoad, .ok ttsW, "20250101_000000"⟩

/-- A generation request: button pressed, a (tiny) voice file, some text. -/
def inpW : GenInput := ⟨true, some [], ['h', 'i'], "English", 1, 2⟩

/-- Downloader environment: the model is already present. -/
def envExists : Dl.DlEnv := ⟨.ok true, .ok "path/model.pth", fun _ => true⟩

/-- Downloader environment: the model is absent and the download lands. -/
def envFresh : Dl.DlEnv := ⟨.ok false, .ok "path/model.pth", fun _ => true⟩

/-- Downloader environment: the existence check raises. -/
def envErr : Dl.DlEnv := ⟨.error "network down", .ok "path/model.pth", fun _ => true⟩

end Wit

/-! ## Claims -/

namespace Claims

open App

/-- C1: every call of `memory_guard` reads the RSS exactly once; a reading
above 90% of `MEMORY_LIMIT_MB` displays a critical error and stops
execution; otherwise a reading above 75% displays a warning and execution
continues; otherwise nothing is displayed and execution continues. -/
theorem c1_memory_guard_thresholds (rssBytes : ℕ) :
    (memory_guard rssBytes).count GEv.readRSS = 1 ∧
    (guard_mem rssBytes > (MEMORY_LIMIT_MB : ℚ) * (9 / 10) →
      memory_guard rssBytes = [GEv.readRSS, GEv.criticalError, GEv.stop]) ∧
    (¬ guard_mem rssBytes > (MEMORY_LIMIT_MB : ℚ) * (9 / 10) →
      guard_mem rssBytes > (MEMORY_LIMIT_MB : ℚ) * (3 / 4) →
      memory_guard rssBytes = [GEv.readRSS, GEv.warning]) ∧
    (¬ guard_mem rssBytes > (MEMORY_LIMIT_MB : ℚ) * (3 / 4) →
      memory_guard rssBytes = [GEv.readRSS]) ∧
    (guard_stops rssBytes = true ↔
      guard_mem rssBytes > (MEMORY_LIMIT_MB : ℚ) * (9 / 10)) := by
  by_cases h1 : (guard_mem rssBytes > (MEMORY_LIMIT_MB : ℚ) * (9 / 10))
  · have hm : memory_guard rssBytes = [GEv.readRSS, GEv.criticalError, GEv.stop] := by
      simp [memory_guard, h1]
    have h2 : guard_mem rssBytes > (MEMORY_LIMIT_MB : ℚ) * (3 / 4) := by
      refine lt_trans ?_ h1
      have : (0 : ℚ) < (MEMORY_LIMIT_MB : ℚ) := by norm_num [MEMORY_LIMIT_MB]
      nlinarith
    simp [hm, guard_stops, h1, h2, List.count]
  · by_cases h2 : (guard_mem rssBytes > (MEMORY_LIMIT_MB : ℚ) * (3 / 4))
    · have hm : memory_guard rssBytes = [GEv.readRSS, GEv.warning] := by
        simp [memory_guard, h1, h2]
      simp [hm, guard_stops, h1, h2, List.count]
    · have hm : memory_guard rssBytes = [GEv.readRSS] := by
        simp [memory_guard, h1, h2]
      simp [hm, guard_stops, h1, h2, List.count]

/-- Witness for C1 at concrete readings: 8000 MB (critical), 7000 MB
(warning), 1000 MB (silent), expressed in bytes. -/
theorem c1_memory_guard_thresholds_witness :
    memory_guard (8000 * 1024 ^ 2) = [GEv.readRSS, GEv.criticalError, GEv.stop] ∧
    memory_guard (7000 * 1024 ^ 2) = [GEv.readRSS, GEv.warning] ∧
    memory_guard (1000 * 1024 ^ 2) = [GEv.readRSS] := by
  refine ⟨(c1_memory_guard_thresholds (8000 * 1024 ^ 2)).2.1 (by norm_num [guard_mem, MEMORY_LIMIT_MB]),
    (c1_memory_guard_thresholds (7000 * 1024 ^ 2)).2.2.1
      (by norm_num [guard_mem, MEMORY_LIMIT_MB]) (by norm_num [guard_mem, MEMORY_LIMIT_MB]),
    (c1_memory_guard_thresholds (1000 * 1024 ^ 2)).2.2.2.1
      (by norm_num [guard_mem, MEMORY_LIMIT_MB])⟩

/-- Evaluation of `process_audio` on the concrete witness libraries and the
empty file: the full success path. -/
theorem lw_empty_eval : process_audio Wit.Lw [] =
    ⟨[LibCall.librosaLoad TARGET_SAMPLE_RATE true MAX_AUDIO_DURATION,
      LibCall.librosaTrim 20, LibCall.quantize 32767,
      LibCall.sfWrite TARGET_SAMPLE_RATE "WAV" "PCM_16"], none, some [1]⟩ := by
  have hsize : ¬ file_size_mb [] > (MAX_FILE_SIZE_MB : ℚ) := by
    norm_num [file_size_mb, MAX_FILE_SIZE_MB]
  simp [process_audio, hsize, Wit.Lw]

/-- C3: for every successfully processed upload, `process_audio` performs
exactly the linear call sequence decode/resample (22050 Hz, mono, 60 s cap),
trim at `top_db=20`, quantize by 32767 into int16, write as PCM_16 WAV at
22050 Hz, and returns the written bytes. -/
theorem c3_process_audio_pipeline (L : AudioLibs) (file : List ℕ) (b : List ℕ)
    (h : (process_audio L file).result = some b) :
    (process_audio L file).calls =
      [LibCall.librosaLoad TARGET_SAMPLE_RATE true MAX_AUDIO_DURATION,
        LibCall.librosaTrim 20, LibCall.quantize 32767,
        LibCall.sfWrite TARGET_SAMPLE_RATE "WAV" "PCM_16"] ∧
    ∃ y yt, L.librosa_load file TARGET_SAMPLE_RATE true MAX_AUDIO_DURATION = .ok y ∧
      L.librosa_trim y 20 = .ok yt ∧
      L.sf_write (yt.map quantizeSample) TARGET_SAMPLE_RATE "WAV" "PCM_16" = .ok b := by
  by_cases hsize : file_size_mb file > (MAX_FILE_SIZE_MB : ℚ)
  · have hp : process_audio L file =
        ⟨[], some (.oversize (file_size_mb file)), none⟩ := by
      simp [process_audio, hsize]
    rw [hp] at h; simp at h
  · cases hload : L.librosa_load file TARGET_SAMPLE_RATE true MAX_AUDIO_DURATION with
    | error e =>
      have hp : process_audio L file =
          ⟨[.librosaLoad TARGET_SAMPLE_RATE true MAX_AUDIO_DURATION],
            some (.libError e), none⟩ := by
        simp [process_audio, hsize, hload]
      rw [hp] at h; simp at h
    | ok y =>
      cases htrim : L.librosa_trim y 20 with
      | error e =>
        have hp : process_audio L file =
            ⟨[.librosaLoad TARGET_SAMPLE_RATE true MAX_AUDIO_DURATION,
              .librosaTrim 20], some (.libError e), none⟩ := by
          simp [process_audio, hsize, hload, htrim]
        rw [hp] at h; simp at h
      | ok yt =>
        cases hw : L.sf_write (yt.map quantizeSample) TARGET_SAMPLE_RATE "WAV" "PCM_16" with
        | error e =>
          have hp : process_audio L file =
              ⟨[.librosaLoad TARGET_SAMPLE_RATE true MAX_AUDIO_DURATION,
                .librosaTrim 20, .quantize 32767], some (.libError e), none⟩ := by
            simp [process_audio, hsize, hload, htrim, hw]
          rw [hp] at h; simp at h
        | ok bytes =>
          have hp : process_audio L file =
              ⟨[.librosaLoad TARGET_SAMPLE_RATE true MAX_AUDIO_DURATION,
                .librosaTrim 20, .quantize 32767,
                .sfWrite TARGET_SAMPLE_RATE "WAV" "PCM_16"], none, some bytes⟩ := by
            simp [process_audio, hsize, hload, htrim, hw]
          rw [hp] at h
          simp only [Option.some.injEq] at h
          subst h
          exact ⟨by rw [hp], y, yt, rfl, htrim, hw⟩

/-- Witness for C3: the concrete libraries `Wit.Lw` on the empty file. -/
theorem c3_process_audio_pipeline_witness :
    (process_audio Wit.Lw []).calls =
      [LibCall.librosaLoad TARGET_SAMPLE_RATE true MAX_AUDIO_DURATION,
        LibCall.librosaTrim 20, LibCall.quantize 32767,
        LibCall.sfWrite TARGET_SAMPLE_RATE "WAV" "PCM_16"] ∧
    ∃ y yt, Wit.Lw.librosa_load [] TARGET_SAMPLE_RATE true MAX_AUDIO_DURATION = .ok y ∧
      Wit.Lw.librosa_trim y 20 = .ok yt ∧
      Wit.Lw.sf_write (yt.map quantizeSample) TARGET_SAMPLE_RATE "WAV" "PCM_16" = .ok [1] :=
  c3_process_audio_pipeline Wit.Lw [] [1] (by rw [lw_empty_eval])

/-- C9: `process_audio` is total at its interface: it either returns bytes
with no error displayed, or catches every exception, displays an error and
returns `None`; it never propagates an exception. -/
theorem c9_process_audio_total (L : AudioLibs) (file : List ℕ) :
    ((process_audio L file).result = none ∧
      ((process_audio L file).errorShown.isSome) = true) ∨
    (∃ b, (process_audio L file).result = some b ∧
      (process_audio L file).errorShown = none) := by
  by_cases hsize : file_size_mb file > (MAX_FILE_SIZE_MB : ℚ)
  · left; simp [process_audio, hsize]
  · cases hload : L.librosa_load file TARGET_SAMPLE_RATE true MAX_AUDIO_DURATION with
    | error e => left; simp [process_audio, hsize, hload]
    | ok y =>
      cases htrim : L.librosa_trim y 20 with
      | error e => left; simp [process_audio, hsize, hload, htrim]
      | ok yt =>
        cases hw : L.sf_write (yt.map quantizeSample) TARGET_SAMPLE_RATE "WAV" "PCM_16" with
        | error e => left; simp [process_audio, hsize, hload, htrim, hw]
        | ok bytes => right; exact ⟨bytes, by simp [process_audio, hsize, hload, htrim, hw],
            by simp [process_audio, hsize, hload, htrim, hw]⟩

/-- C10: text beyond `MAX_TEXT_LENGTH` is silently truncated:
`optimized_generation` behaves identically on a text and on its first
3000 characters, since only the truncated text reaches the model. -/
theorem c10_text_truncation (tts : TTSModel) (text : List Char) (audio_data : List ℕ) :
    optimized_generation tts text audio_data =
      optimized_generation tts (text.take MAX_TEXT_LENGTH) audio_data := by
  simp [optimized_generation, List.take_take]

/-- C4: the input-size limits: a file over 50 MB is rejected before any
library call, with the `ValueError` caught and displayed and `None`
returned; every decode call passes the 60-second duration cap (and the
22050 Hz mono target); and only the first 3000 characters of the text are
passed to the synthesis model. -/
theorem c4_input_limits (L : AudioLibs) (file : List ℕ) (tts : TTSModel)
    (text : List Char) (audio_data : List ℕ) :
    (file_size_mb file > (MAX_FILE_SIZE_MB : ℚ) →
      (process_audio L file).result = none ∧
      (process_audio L file).errorShown = some (.oversize (file_size_mb file)) ∧
      (process_audio L file).calls = []) ∧
    (∀ sr mono d, LibCall.librosaLoad sr mono d ∈ (process_audio L file).calls →
      sr = TARGET_SAMPLE_RATE ∧ mono = true ∧ d = MAX_AUDIO_DURATION) ∧
    (optimized_generation tts text audio_data).1.textArg = text.take MAX_TEXT_LENGTH := by
  refine ⟨fun hsize => by simp [process_audio, hsize], ?_, rfl⟩
  intro sr mono d hmem
  by_cases hsize : file_size_mb file > (MAX_FILE_SIZE_MB : ℚ)
  · simp [process_audio, hsize] at hmem
  · cases hload : L.librosa_load file TARGET_SAMPLE_RATE true MAX_AUDIO_DURATION with
    | error e =>
      simp [process_audio, hsize, hload] at hmem
      exact ⟨hmem.1, hmem.2.1, hmem.2.2⟩
    | ok y =>
      cases htrim : L.librosa_trim y 20 with
      | error e =>
        simp [process_audio, hsize, hload, htrim] at hmem
        exact ⟨hmem.1, hmem.2.1, hmem.2.2⟩
      | ok yt =>
        cases hw : L.sf_write (yt.map quantizeSample) TARGET_SAMPLE_RATE "WAV" "PCM_16" with
        | error e =>
          simp [process_audio, hsize, hload, htrim, hw] at hmem
          exact ⟨hmem.1, hmem.2.1, hmem.2.2⟩
        | ok bytes =>
          simp [process_audio, hsize, hload, htrim, hw] at hmem
          exact ⟨hmem.1, hmem.2.1, hmem.2.2⟩

/-- Witness for C4: a file one byte over 50 MB is rejected; the decode call
of a successful run carries `sr=22050, mono=True, duration=60`. -/
theorem c4_input_limits_witness :
    ((process_audio Wit.Lw Wit.bigFile).result = none ∧
      (process_audio Wit.Lw Wit.bigFile).errorShown =
        some (.oversize (file_size_mb Wit.bigFile)) ∧
      (process_audio Wit.Lw Wit.bigFile).calls = []) ∧
    (22050 = TARGET_SAMPLE_RATE ∧ true = true ∧ 60 = MAX_AUDIO_DURATION) ∧
    (optimized_generation Wit.ttsW ['a'] [0]).1.textArg = ['a'].take MAX_TEXT_LENGTH := by
  have hbig : file_size_mb Wit.bigFile > (MAX_FILE_SIZE_MB : ℚ) := by
    simp only [file_size_mb, Wit.bigFile, List.length_replicate, MAX_FILE_SIZE_MB]
    norm_num
  have hmem : LibCall.librosaLoad 22050 true 60 ∈ (process_audio Wit.Lw []).calls := by
    rw [lw_empty_eval]
    simp [TARGET_SAMPLE_RATE, MAX_AUDIO_DURATION]
  exact ⟨(c4_input_limits Wit.Lw Wit.bigFile Wit.ttsW ['a'] [0]).1 hbig,
    (c4_input_limits Wit.Lw [] Wit.ttsW ['a'] [0]).2.1 22050 true 60 hmem,
    (c4_input_limits Wit.Lw [] Wit.ttsW ['a'] [0]).2.2⟩

/-- The benign witness RSS reading triggers neither threshold. -/
theorem guard_w_eval : memory_guard 1048576000 = [GEv.readRSS] := by
  have h1 : ¬ ((MEMORY_LIMIT_MB : ℚ) * (9 / 10) < guard_mem 1048576000) := by
    norm_num [guard_mem, MEMORY_LIMIT_MB]
  have h2 : ¬ ((MEMORY_LIMIT_MB : ℚ) * (3 / 4) < guard_mem 1048576000) := by
    norm_num [guard_mem, MEMORY_LIMIT_MB]
  simp [memory_guard, h1, h2]

/-- The guard does not stop at the benign witness reading. -/
theorem guard_w_stops : guard_stops 1048576000 = false := by
  unfold guard_stops
  rw [guard_w_eval]
  decide

/-- Evaluation of `process_audio` on the failing decoder. -/
theorem lbad_empty_eval : process_audio Wit.LbadLoad [] =
    ⟨[LibCall.librosaLoad TARGET_SAMPLE_RATE true MAX_AUDIO_DURATION],
      some (.libError "decode failure"), none⟩ := by
  have hsize : ¬ file_size_mb [] > (MAX_FILE_SIZE_MB : ℚ) := by
    norm_num [file_size_mb, MAX_FILE_SIZE_MB]
  simp [process_audio, hsize, Wit.LbadLoad]

/-- Full evaluation of the generation branch in the benign environment,
fresh session: the model is loaded, audio processed, speech synthesized,
cleanup runs. -/
theorem main_eval_fresh :
    main_generate Wit.envW Wit.inpW ⟨none⟩ =
      ⟨[Ev.memGuard, Ev.loadModel, Ev.processAudio, Ev.synthesize,
          Ev.displayAudio, Ev.cleanup],
        ⟨some Wit.ttsW⟩, some [1],
        some (download_name "English" "20250101_000000"), false⟩ := by
  simp [main_generate, isRequest, Wit.envW, Wit.inpW, guard_w_stops,
    main_after_load, lw_empty_eval, optimized_generation, Wit.ttsW]

/-- Full evaluation of the generation branch in the benign environment
with the model already in the session: no load event. -/
theorem main_eval_cached :
    main_generate Wit.envW Wit.inpW ⟨some Wit.ttsW⟩ =
      ⟨[Ev.memGuard, Ev.processAudio, Ev.synthesize,
          Ev.displayAudio, Ev.cleanup],
        ⟨some Wit.ttsW⟩, some [1],
        some (download_name "English" "20250101_000000"), false⟩ := by
  simp [main_generate, isRequest, Wit.envW, Wit.inpW, guard_w_stops,
    main_after_load, lw_empty_eval, optimized_generation, Wit.ttsW]

/-- Full evaluation of the generation branch when decoding fails:
`process_audio` returns `None` and the branch returns early. -/
theorem main_eval_bad :
    main_generate Wit.envBad Wit.inpW ⟨some Wit.ttsW⟩ =
      ⟨[Ev.memGuard, Ev.processAudio], ⟨some Wit.ttsW⟩, none, none, false⟩ := by
  simp [main_generate, isRequest, Wit.envBad, Wit.inpW, guard_w_stops,
    main_after_load, lbad_empty_eval]

/-- C2: on a generation request, the pipeline steps run in the order
load model (when not already in the session), then preprocess, then
synthesize; synthesis is never reached when preprocessing returned no
data. -/
theorem c2_pipeline_order (env : GenEnv) (inp : GenInput) (sess : Session)
    (hb : inp.buttonPressed = true) (hv : inp.voiceFile.isSome = true)
    (ht : inp.textInput ≠ []) :
    (Ev.synthesize ∈ (main_generate env inp sess).trace →
      [Ev.processAudio, Ev.synthesize].Sublist (main_generate env inp sess).trace) ∧
    (Ev.loadModel ∈ (main_generate env inp sess).trace →
      Ev.processAudio ∈ (main_generate env inp sess).trace →
      [Ev.loadModel, Ev.processAudio].Sublist (main_generate env inp sess).trace) ∧
    ((process_audio env.libs (inp.voiceFile.getD [])).result = none ∨
      (process_audio env.libs (inp.voiceFile.getD [])).result = some [] →
      Ev.synthesize ∉ (main_generate env inp sess).trace) := by
  have hreq : isRequest inp = true := by
    simp [isRequest, hb, hv, List.isEmpty_iff, ht]
  cases hgs : guard_stops env.rssBytes with
  | true =>
    simp [main_generate, hreq, hgs]
  | false =>
    rcases hst : sess.tts with _ | m
    · rcases hlr : env.loadResult with e | m'
      · simp [main_generate, hreq, hgs, hst, hlr]
      · rcases hpr : (process_audio env.libs (inp.voiceFile.getD [])).result with _ | b
        · simp [main_generate, main_after_load, hreq, hgs, hst, hlr, hpr]
        · by_cases hb0 : b = []
          · simp [main_generate, main_after_load, hreq, hgs, hst, hlr, hpr, hb0]
          · rcases hsy : (optimized_generation m' inp.textInput b).2 with e | out
            · simp [main_generate, main_after_load, hreq, hgs, hst, hlr, hpr, hb0, hsy]
            · simp [main_generate, main_after_load, hreq, hgs, hst, hlr, hpr, hb0, hsy]
    · rcases hpr : (process_audio env.libs (inp.voiceFile.getD [])).result with _ | b
      · simp [main_generate, main_after_load, hreq, hgs, hst, hpr]
      · by_cases hb0 : b = []
        · simp [main_generate, main_after_load, hreq, hgs, hst, hpr, hb0]
        · rcases hsy : (optimized_generation m inp.textInput b).2 with e | out
          · simp [main_generate, main_after_load, hreq, hgs, hst, hpr, hb0, hsy]
          · simp [main_generate, main_after_load, hreq, hgs, hst, hpr, hb0, hsy]

/-- Witness for C2: the benign run from a fresh session. -/
theorem c2_pipeline_order_witness :
    (Ev.synthesize ∈ (main_generate Wit.envW Wit.inpW ⟨none⟩).trace →
      [Ev.processAudio, Ev.synthesize].Sublist (main_generate Wit.envW Wit.inpW ⟨none⟩).trace) ∧
    (Ev.loadModel ∈ (main_generate Wit.envW Wit.inpW ⟨none⟩).trace →
      Ev.processAudio ∈ (main_generate Wit.envW Wit.inpW ⟨none⟩).trace →
      [Ev.loadModel, Ev.processAudio].Sublist (main_generate Wit.envW Wit.inpW ⟨none⟩).trace) ∧
    ((process_audio Wit.envW.libs (Wit.inpW.voiceFile.getD [])).result = none ∨
      (process_audio Wit.envW.libs (Wit.inpW.voiceFile.getD [])).result = some [] →
      Ev.synthesize ∉ (main_generate Wit.envW Wit.inpW ⟨none⟩).trace) :=
  c2_pipeline_order Wit.envW Wit.inpW ⟨none⟩ (by rfl) (by rfl) (by simp [Wit.inpW])

/-- `main_after_load` never changes the session it is given. -/
theorem after_load_session (env : GenEnv) (inp : GenInput) (sess : Session)
    (m : TTSModel) (tr : List Ev) :
    (main_after_load env inp sess m tr).session = sess := by
  unfold main_after_load
  split
  · rfl
  · split
    · rfl
    · split <;> rfl

/-- `main_after_load` emits a `loadModel` event only if its accumulated
trace already had one. -/
theorem after_load_loadModel (env : GenEnv) (inp : GenInput) (sess : Session)
    (m : TTSModel) (tr : List Ev) :
    (Ev.loadModel ∈ (main_after_load env inp sess m tr).trace ↔ Ev.loadModel ∈ tr) := by
  unfold main_after_load
  split
  · simp
  · split
    · simp
    · split <;> simp

/-- C6: the cache annotation keeps at most one entry (by the type of
`CacheState`); a call within the TTL returns the cached instance without
running the body; and the app loads the model lazily and at most once per
session: no `load_model` call when `tts` is in the session state, a
`load_model` call only from a session without `tts`, and a successful
load stores the model in the session. -/
theorem c6_model_caching (cs : CacheState) (now : ℕ) (fresh : TTSModel)
    (t0 : ℕ) (m : TTSModel) (env : GenEnv) (inp : GenInput) (sess : Session) :
    (cs.entry = some (t0, m) → now < t0 + MODEL_TTL →
      cache_resource_call cs now fresh = (m, cs, false)) ∧
    (∀ m0, sess.tts = some m0 → Ev.loadModel ∉ (main_generate env inp sess).trace) ∧
    (Ev.loadModel ∈ (main_generate env inp sess).trace → sess.tts = none) ∧
    (∀ m1, env.loadResult = .ok m1 →
      Ev.loadModel ∈ (main_generate env inp sess).trace →
      (main_generate env inp sess).session.tts = some m1) := by
  refine ⟨fun h1 h2 => by simp [cache_resource_call, h1, h2], ?_, ?_, ?_⟩ <;>
  · cases hreq : isRequest inp with
    | false => simp [main_generate, hreq]
    | true =>
      cases hgs : guard_stops env.rssBytes with
      | true => simp [main_generate, hreq, hgs]
      | false =>
        rcases hst : sess.tts with _ | m0
        · rcases hlr : env.loadResult with e | m1
          · simp [main_generate, hreq, hgs, hst, hlr]
          · simp [main_generate, hreq, hgs, hst, hlr, after_load_loadModel,
              after_load_session]
        · simp [main_generate, hreq, hgs, hst, after_load_loadModel, after_load_session]

/-- Witness for C6: a cache hit one second after storing; the benign app
run (fresh session loads and stores the model, cached session does not
load). -/
theorem c6_model_caching_witness :
    cache_resource_call ⟨some (0, Wit.ttsW)⟩ 1 Wit.ttsW =
      (Wit.ttsW, ⟨some (0, Wit.ttsW)⟩, false) ∧
    Ev.loadModel ∉ (main_generate Wit.envW Wit.inpW ⟨some Wit.ttsW⟩).trace ∧
    (main_generate Wit.envW Wit.inpW ⟨none⟩).session.tts = some Wit.ttsW := by
  have h1 := c6_model_caching ⟨some (0, Wit.ttsW)⟩ 1 Wit.ttsW 0 Wit.ttsW
    Wit.envW Wit.inpW ⟨some Wit.ttsW⟩
  have h2 := c6_model_caching ⟨some (0, Wit.ttsW)⟩ 1 Wit.ttsW 0 Wit.ttsW
    Wit.envW Wit.inpW ⟨none⟩
  refine ⟨h1.1 rfl (by decide), h1.2.1 Wit.ttsW rfl, ?_⟩
  exact h2.2.2.2 Wit.ttsW rfl (by rw [main_eval_fresh]; decide)

/-- Counterexample to C7: a generation request (button, file, text all
present) on which decoding fails: `process_audio` returns `None`, the
branch hits `if not audio_data: return` and completes — no exception, no
stop — yet `memory_cleanup` never ran. -/
theorem c7_cleanup_counterexample :
    isRequest Wit.inpW = true ∧
    (main_generate Wit.envBad Wit.inpW ⟨some Wit.ttsW⟩).stopped = false ∧
    Ev.cleanup ∉ (main_generate Wit.envBad Wit.inpW ⟨some Wit.ttsW⟩).trace := by
  refine ⟨rfl, ?_, ?_⟩ <;> simp [main_eval_bad]

/-- C7 (amended): `memory_cleanup` deletes `"output.wav"` when it exists
(ignoring deletion failures) and touches no other file; in the generation
branch, cleanup runs exactly on the runs that reach synthesis or the
exception handler — when preprocessing returns no data the branch returns
early without running cleanup. -/
theorem c7_cleanup_amended (fs : List String) (removeFails : Bool) (f : String)
    (env : GenEnv) (inp : GenInput) (sess : Session) :
    (f ≠ "output.wav" → (f ∈ memory_cleanup_fs fs removeFails ↔ f ∈ fs)) ∧
    "output.wav" ∉ memory_cleanup_fs fs false ∧
    (Ev.cleanup ∈ (main_generate env inp sess).trace ↔
      Ev.synthesize ∈ (main_generate env inp sess).trace ∨
      Ev.showError ∈ (main_generate env inp sess).trace) := by
  refine ⟨?_, ?_, ?_⟩
  · intro hf
    unfold memory_cleanup_fs
    split
    · split
      · exact Iff.rfl
      · simp [List.mem_filter, hf]
    · exact Iff.rfl
  · unfold memory_cleanup_fs
    split
    · simp [List.mem_filter]
    · rename_i hout
      exact hout
  · cases hreq : isRequest inp with
    | false => simp [main_generate, hreq]
    | true =>
      cases hgs : guard_stops env.rssBytes with
      | true => simp [main_generate, hreq, hgs]
      | false =>
        rcases hst : sess.tts with _ | m
        · rcases hlr : env.loadResult with e | m1
          · simp [main_generate, hreq, hgs, hst, hlr]
          · rcases hpr : (process_audio env.libs (inp.voiceFile.getD [])).result with _ | b
            · simp [main_generate, main_after_load, hreq, hgs, hst, hlr, hpr]
            · by_cases hb0 : b = []
              · simp [main_generate, main_after_load, hreq, hgs, hst, hlr, hpr, hb0]
              · rcases hsy : (optimized_generation m1 inp.textInput b).2 with e | out <;>
                  simp [main_generate, main_after_load, hreq, hgs, hst, hlr, hpr, hb0, hsy]
        · rcases hpr : (process_audio env.libs (inp.voiceFile.getD [])).result with _ | b
          · simp [main_generate, main_after_load, hreq, hgs, hst, hpr]
          · by_cases hb0 : b = []
            · simp [main_generate, main_after_load, hreq, hgs, hst, hpr, hb0]
            · rcases hsy : (optimized_generation m inp.textInput b).2 with e | out <;>
                simp [main_generate, main_after_load, hreq, hgs, hst, hpr, hb0, hsy]

/-- Witness for C7 (amended): a file system holding `"output.wav"` and
`"keep.txt"`, and the benign full run. -/
theorem c7_cleanup_amended_witness :
    ("keep.txt" ∈ memory_cleanup_fs ["output.wav", "keep.txt"] false ↔
      "keep.txt" ∈ ["output.wav", "keep.txt"]) ∧
    "output.wav" ∉ memory_cleanup_fs ["output.wav", "keep.txt"] false ∧
    (Ev.cleanup ∈ (main_generate Wit.envW Wit.inpW ⟨none⟩).trace ↔
      Ev.synthesize ∈ (main_generate Wit.envW Wit.inpW ⟨none⟩).trace ∨
      Ev.showError ∈ (main_generate Wit.envW Wit.inpW ⟨none⟩).trace) := by
  have h := c7_cleanup_amended ["output.wav", "keep.txt"] false "keep.txt"
    Wit.envW Wit.inpW ⟨none⟩
  exact ⟨h.1 (by decide), h.2.1, h.2.2⟩

/-- C5: the downloader returns `True` without downloading when the model
exists; when absent it downloads and returns `True` exactly when the
downloaded model file exists on disk; exceptions never propagate (the
function returns `False` instead), and a `False` return makes the script
exit with status 1. -/
theorem c5_download_model (env : Dl.DlEnv) :
    (env.model_exists = .ok true →
      Dl.download_model env = ⟨[Dl.DlEv.checkExists], true⟩) ∧
    (∀ p, env.model_exists = .ok false → env.manager_download = .ok p →
      Dl.DlEv.doDownload ∈ (Dl.download_model env).trace ∧
      ((Dl.download_model env).ok = true ↔ env.path_exists p = true)) ∧
    ((∃ e, env.model_exists = .error e) ∨
      (env.model_exists = .ok false ∧ ∃ e, env.manager_download = .error e) →
      (Dl.download_model env).ok = false) ∧
    ((Dl.download_model env).ok = false → Dl.script_exit env = 1) := by
  refine ⟨fun h => by simp [Dl.download_model, h], ?_, ?_, ?_⟩
  · intro p h1 h2
    cases hpe : env.path_exists p <;>
      simp [Dl.download_model, h1, h2, hpe]
  · rintro (⟨e, he⟩ | ⟨h1, e, he⟩)
    · simp [Dl.download_model, he]
    · simp [Dl.download_model, h1, he]
  · intro hok
    simp [Dl.script_exit, hok]

/-- Witness for C5: the three concrete downloader environments. -/
theorem c5_download_model_witness :
    Dl.download_model Wit.envExists = ⟨[Dl.DlEv.checkExists], true⟩ ∧
    (Dl.DlEv.doDownload ∈ (Dl.download_model Wit.envFresh).trace ∧
      ((Dl.download_model Wit.envFresh).ok = true ↔
        Wit.envFresh.path_exists "path/model.pth" = true)) ∧
    (Dl.download_model Wit.envErr).ok = false ∧
    Dl.script_exit Wit.envErr = 1 := by
  have h1 := c5_download_model Wit.envExists
  have h2 := c5_download_model Wit.envFresh
  have h3 := c5_download_model Wit.envErr
  refine ⟨h1.1 rfl, h2.2.1 "path/model.pth" rfl rfl, ?_, ?_⟩
  · exact h3.2.2.1 (Or.inl ⟨"network down", rfl⟩)
  · exact h3.2.2.2 (h3.2.2.1 (Or.inl ⟨"network down", rfl⟩))

/-- C8: the generated speech is independent of the language selectbox and
the two Advanced Settings sliders: two runs differing only in those
settings produce the same events and the same output (the model is always
called with `language="en"` and the sliders are never read); the language
selection influences only the download file name. -/
theorem c8_ui_independence (env : GenEnv) (sess : Session) (b : Bool)
    (vf : Option (List ℕ)) (t : List Char) (l1 l2 : String) (s1 s2 : ℚ)
    (e1 e2 : ℕ) :
    (main_generate env ⟨b, vf, t, l1, s1, e1⟩ sess).output =
      (main_generate env ⟨b, vf, t, l2, s2, e2⟩ sess).output ∧
    (main_generate env ⟨b, vf, t, l1, s1, e1⟩ sess).trace =
      (main_generate env ⟨b, vf, t, l2, s2, e2⟩ sess).trace ∧
    (∀ fn, (main_generate env ⟨b, vf, t, l1, s1, e1⟩ sess).fileName = some fn →
      fn = download_name l1 env.timestamp) := by
  cases hreq : (b && vf.isSome && !t.isEmpty) with
  | false => simp [main_generate, isRequest, hreq]
  | true =>
    cases hgs : guard_stops env.rssBytes with
    | true => simp [main_generate, isRequest, hreq, hgs]
    | false =>
      rcases hst : sess.tts with _ | m
      · rcases hlr : env.loadResult with e | m1
        · simp [main_generate, isRequest, hreq, hgs, hst, hlr]
        · rcases hpr : (process_audio env.libs (vf.getD [])).result with _ | bb
          · simp [main_generate, main_after_load, isRequest, hreq, hgs, hst, hlr, hpr]
          · by_cases hb0 : bb = []
            · simp [main_generate, main_after_load, isRequest, hreq, hgs, hst, hlr,
                hpr, hb0]
            · rcases hsy : (optimized_generation m1 t bb).2 with e | out <;>
                simp [main_generate, main_after_load, isRequest, hreq, hgs, hst, hlr,
                  hpr, hb0, hsy]
      · rcases hpr : (process_audio env.libs (vf.getD [])).result with _ | bb
        · simp [main_generate, main_after_load, isRequest, hreq, hgs, hst, hpr]
        · by_cases hb0 : bb = []
          · simp [main_generate, main_after_load, isRequest, hreq, hgs, hst, hpr, hb0]
          · rcases hsy : (optimized_generation m t bb).2 with e | out <;>
              simp [main_generate, main_after_load, isRequest, hreq, hgs, hst, hpr,
                hb0, hsy]

/-- Witness for C8: the benign run with language English / speed 1 /
emphasis 2 against the same run with French / 1.2 / 3. -/
theorem c8_ui_independence_witness :
    (main_generate Wit.envW ⟨true, some [], ['h', 'i'], "English", 1, 2⟩ ⟨none⟩).output =
      (main_generate Wit.envW ⟨true, some [], ['h', 'i'], "French", 12 / 10, 3⟩ ⟨none⟩).output ∧
    (main_generate Wit.envW ⟨true, some [], ['h', 'i'], "English", 1, 2⟩ ⟨none⟩).trace =
      (main_generate Wit.envW ⟨true, some [], ['h', 'i'], "French", 12 / 10, 3⟩ ⟨none⟩).trace ∧
    download_name "English" "20250101_000000" = download_name "English" Wit.envW.timestamp := by
  have h := c8_ui_independence Wit.envW ⟨none⟩ true (some []) ['h', 'i']
    "English" "French" 1 (12 / 10) 2 3
  refine ⟨h.1, h.2.1, ?_⟩
  exact h.2.2 (download_name "English" "20250101_000000")
    (by rw [show (⟨true, some [], ['h', 'i'], "English", 1, 2⟩ : GenInput) = Wit.inpW from rfl,
          main_eval_fresh])

end Claims
